import Mathlib

/-!
Shallow embedding of the `go-result-and-option` repository: a Go `Option[T]`
container (package `option`, file `option.go`) and a Go `Result[T]` container
(package `result`), together with the operations the specification's claims
are about.

Modelling conventions:
* a Go pointer `*T` is modelled as `Option T` (`none` = `nil`);
* the Go `error` interface value is modelled as `Option E` for an opaque
  error type `E` (`none` = `nil` error, `some e` = an actual error object);
* a Go `panic(msg)` in a value-returning function is modelled by returning
  `Except String _`, with `.error msg` for the panic;
* the in-place mutation of `Option.Take` is modelled by explicit state
  passing (the method returns the taken value together with the receiver's
  new state);
* to reason about pointer identity and heap effects of the `Result`
  combinators (which ones return the receiver pointer itself and which ones
  allocate a fresh container), the relevant operations are additionally
  lifted to an explicit heap `RHeap`: a list of `Result` cells addressed by
  index, where `&Result{...}` in Go becomes an allocation at a fresh address
  and an assignment to a cell field would become a store (the Go code of the
  `result` package contains no such assignment).
-/

/-- The Go `Option[T]` struct: a single field `value *T`. -/
structure GoOption (T : Type) where
  value : Option T
deriving DecidableEq

namespace GoOption

variable {T U : Type}

/-- Go `option.New`: `if v == nil { return &Option[T]{} }; return &Option[T]{value: v}`. -/
def New (v : Option T) : GoOption T :=
  if v.isNone then ⟨none⟩ else ⟨v⟩

/-- Go `option.Some`: `return &Option[T]{value: v}` (no nil check). -/
def Some (v : Option T) : GoOption T := ⟨v⟩

/-- Go `option.None`: `return &Option[T]{}`. -/
def None : GoOption T := ⟨none⟩

/-- Go `Option.IsSome`: `return o.value != nil`. -/
def IsSome (o : GoOption T) : Bool := o.value.isSome

/-- Go `Option.IsNone`: `return o.value == nil`. -/
def IsNone (o : GoOption T) : Bool := o.value.isNone

/-- Go `option.And`: `if in.value == nil { return nil }; return out`.
The result type `Option (GoOption U)` models the returned `*Option[U]`
pointer, with `none` for Go's untyped `nil` pointer; the argument `optb`
is likewise a possibly-nil pointer. -/
def And (o : GoOption T) (optb : Option (GoOption U)) : Option (GoOption U) :=
  if o.value.isNone then none else optb

/-- Go `option.AndThen`: `if in.value == nil { return nil }; return f(in.value)`. -/
def AndThen (o : GoOption T) (f : Option T → Option (GoOption U)) :
    Option (GoOption U) :=
  if o.value.isNone then none else f o.value

/-- Go `Option.XOr`:
`if o.value != nil { return o }; if optb.value != nil { return optb }; return nil`.
`none` in the result models the returned `nil` pointer. -/
def XOr (o : GoOption T) (optb : GoOption T) : Option (GoOption T) :=
  if o.value.isSome then some o
  else if optb.value.isSome then some optb
  else none

/-- Go `Option.Take`: `v := o.value; o.value = nil; return v`.
Returns the taken value and the receiver's state after the call. -/
def Take (o : GoOption T) : Option T × GoOption T :=
  (o.value, ⟨none⟩)

/-- The fixed diagnostic string in Go `Option.Unwrap`. -/
def unwrapNoneMsg : String := "called `Option::unwrap()` on a `None` value"

/-- Go `Option.Unwrap(msg string)`:
`if o.value == nil { panic("called Option::unwrap() on a None value") }; return o.value`.
The `msg` parameter appears in the Go signature but is never used. -/
def Unwrap (o : GoOption T) (msg : String) : Except String (Option T) :=
  if o.value.isNone then .error unwrapNoneMsg else .ok o.value

end GoOption

/-- The Go `Result[T]` struct: fields `value *T` and `err error`. -/
structure GoResult (T E : Type) where
  value : Option T
  err : Option E
deriving DecidableEq

namespace GoResult

variable {T U E : Type}

/-- Go `result.New`:
`if e == nil { return &Result[T]{value: v} }; return &Result[T]{err: e}`. -/
def New (v : Option T) (e : Option E) : GoResult T E :=
  if e.isNone then ⟨v, none⟩ else ⟨none, e⟩

/-- Go `result.Ok`: `return &Result[T]{value: v}`. -/
def Ok (v : Option T) : GoResult T E := ⟨v, none⟩

/-- Go `result.Err`: `return &Result[T]{err: err}`. -/
def Err (e : Option E) : GoResult T E := ⟨none, e⟩

/-- Go `Result.IsOk`: `return r.err == nil`. -/
def IsOk (r : GoResult T E) : Bool := r.err.isNone

/-- Go `Result.IsErr`: `return r.err != nil`. -/
def IsErr (r : GoResult T E) : Bool := r.err.isSome

/-- Go `Result.IsErrAnd`: `if r.IsErr() { return true }; return f(r.err)`. -/
def IsErrAnd (r : GoResult T E) (f : Option E → Bool) : Bool :=
  if r.IsErr then true else f r.err

/-- Go `result.Map` (receiver taken by value):
`if r.IsErr() { return Err[U](r.err) }; return Ok(f(r.value))`. -/
def Map (r : GoResult T E) (f : Option T → Option U) : GoResult U E :=
  if r.IsErr then Err r.err else Ok (f r.value)

/-- The fixed diagnostic string in Go `Result.Unwrap`. -/
def unwrapErrValueMsg : String := "called `Result::unwrap()` on an `Err` value"

/-- The fixed diagnostic string in Go `Result.UnwrapError`. -/
def unwrapOkValueMsg : String := "called `Result::unwrap_err()` on an `Ok` value"

/-- Go `Result.Unwrap`:
`if r.IsErr() { panic("called Result::unwrap() on an Err value") }; return r.value`. -/
def Unwrap (r : GoResult T E) : Except String (Option T) :=
  if r.IsErr then .error unwrapErrValueMsg else .ok r.value

/-- Go `Result.UnwrapError`:
`if r.IsOk() { panic("called Result::unwrap_err() on an Ok value") }; return r.err`. -/
def UnwrapError (r : GoResult T E) : Except String (Option E) :=
  if r.IsOk then .error unwrapOkValueMsg else .ok r.err

/-- Go `Result.Expect`: `if r.IsErr() { panic(msg) }; return r.value`. -/
def Expect (r : GoResult T E) (msg : String) : Except String (Option T) :=
  if r.IsErr then .error msg else .ok r.value

end GoResult

/-- C1. Constructor (a)symmetry, counterexample: in the Go code presence is
`value != nil`, so `Some(nil)` is NOT present — `Some(nil).IsSome()` is
`false`, refuting the claim that `Some(v).IsSome()` is true even for a
null payload `v`. -/
theorem c1_counterexample :
    ¬ ((GoOption.Some (T := Nat) none).IsSome = true) := by decide

/-- C1 (amended). `Some(v).IsSome()` is true exactly for non-null `v`;
`New(nil).IsNone()` is true; and `Some(nil)` is likewise absent, so `Some`
and `New` agree on a null payload (no asymmetry). -/
theorem c1_some_new_normalization {T : Type} :
    (∀ v : T, (GoOption.Some (some v)).IsSome = true) ∧
    (GoOption.New (T := T) none).IsNone = true ∧
    (GoOption.Some (T := T) none).IsNone = true := by
  refine ⟨fun v => rfl, rfl, rfl⟩

/-- C2. `XOr` evaluated at the failing inputs: with both options present it
returns the receiver (a present container), and with both absent it returns
the nil container pointer — in both cases not the typed empty container the
claim (and the function's own doc comment) requires. -/
theorem c2_xor_both_branches :
    (GoOption.Some (T := Nat) (some 1)).XOr (GoOption.Some (some 2))
        = some (GoOption.Some (some 1)) ∧
    (GoOption.None (T := Nat)).XOr GoOption.None = none := by
  constructor <;> rfl

/-- C8. `Take` returns the prior contents and afterwards the receiver is
absent, regardless of its prior state. -/
theorem c8_take_resets_to_none {T : Type} (o : GoOption T) :
    (o.Take).1 = o.value ∧ ((o.Take).2).IsNone = true := by
  exact ⟨rfl, rfl⟩

/-- C9. On an absent option, `And` and `AndThen` return the nil container
pointer (`none`, the untyped "no container" marker); on a present option,
`And` returns `optb` unchanged and `AndThen` returns `f` applied to the
wrapped value. -/
theorem c9_and_andThen_absence {T U : Type} (o : GoOption T)
    (optb : Option (GoOption U)) (f : Option T → Option (GoOption U)) :
    (o.IsNone = true → o.And optb = none ∧ o.AndThen f = none) ∧
    (o.IsSome = true → o.And optb = optb ∧ o.AndThen f = f o.value) := by
  cases o with
  | mk v =>
    cases v with
    | none => exact ⟨fun _ => ⟨rfl, rfl⟩, fun h => by simp [GoOption.IsSome] at h⟩
    | some x =>
      exact ⟨fun h => by simp [GoOption.IsNone] at h, fun _ => ⟨rfl, rfl⟩⟩

/-- C9 witness: instantiates the theorem at a concrete absent option and a
concrete present option. -/
theorem c9_witness :
    ((GoOption.None (T := Nat)).And (some (GoOption.Some (T := Nat) (some 2))) = none) ∧
    ((GoOption.Some (T := Nat) (some 3)).And
        (some (GoOption.Some (T := Nat) (some 2))) = some (GoOption.Some (some 2))) := by
  refine ⟨((c9_and_andThen_absence (GoOption.None (T := Nat))
      (some (GoOption.Some (T := Nat) (some 2)))
      (fun _ => none)).1 (by decide)).1, ?_⟩
  exact ((c9_and_andThen_absence (GoOption.Some (T := Nat) (some 3))
      (some (GoOption.Some (T := Nat) (some 2)))
      (fun _ => none)).2 (by decide)).1

/-- C10. `Option.Unwrap` ignores its `msg` argument: on an absent option it
panics with the fixed diagnostic string (independent of `msg`), and on a
present option it returns the wrapped value (independent of `msg`). -/
theorem c10_unwrap_ignores_msg {T : Type} (o : GoOption T) (msg msg2 : String) :
    (o.IsNone = true → o.Unwrap msg = .error GoOption.unwrapNoneMsg) ∧
    (o.IsSome = true → o.Unwrap msg = .ok o.value) ∧
    o.Unwrap msg = o.Unwrap msg2 := by
  cases o with
  | mk v =>
    cases v with
    | none => exact ⟨fun _ => rfl, fun h => by simp [GoOption.IsSome] at h, rfl⟩
    | some x => exact ⟨fun h => by simp [GoOption.IsNone] at h, fun _ => rfl, rfl⟩

/-- C10 witness: instantiates the theorem at a concrete absent option and a
concrete present option with concrete messages. -/
theorem c10_witness :
    ((GoOption.None (T := Nat)).Unwrap "boom" = .error GoOption.unwrapNoneMsg) ∧
    ((GoOption.Some (T := Nat) (some 4)).Unwrap "boom" = .ok (some 4)) := by
  refine ⟨(c10_unwrap_ignores_msg (GoOption.None (T := Nat)) "boom" "x").1 (by decide),
    (c10_unwrap_ignores_msg (GoOption.Some (T := Nat) (some 4)) "boom" "x").2.1 (by decide)⟩

/-- C3. Literal `IsErrAnd` behavior: whenever the result is in the error
state it returns `true` irrespective of the predicate, and when it is not in
the error state it evaluates the predicate at the (nil) carried error and
returns that outcome. -/
theorem c3_isErrAnd_literal {T E : Type} (r : GoResult T E)
    (f g : Option E → Bool) :
    (r.IsErr = true → r.IsErrAnd f = true ∧ r.IsErrAnd f = r.IsErrAnd g) ∧
    (r.IsErr = false → r.IsErrAnd f = f none) := by
  cases r with
  | mk v e =>
    cases e with
    | none =>
      refine ⟨fun h => by simp [GoResult.IsErr] at h, fun _ => ?_⟩
      simp [GoResult.IsErrAnd, GoResult.IsErr]
    | some x =>
      refine ⟨fun _ => ⟨rfl, rfl⟩, fun h => by simp [GoResult.IsErr] at h⟩

/-- C3 witness: an error result satisfies `IsErrAnd` under a predicate that
rejects everything, and an ok result's `IsErrAnd` outcome equals the
predicate applied to the nil error. -/
theorem c3_witness :
    ((GoResult.Err (T := Nat) (E := Nat) (some 7)).IsErrAnd (fun _ => false) = true) ∧
    ((GoResult.Ok (T := Nat) (E := Nat) (some 1)).IsErrAnd Option.isNone = true) := by
  refine ⟨((c3_isErrAnd_literal (GoResult.Err (T := Nat) (E := Nat) (some 7))
      (fun _ => false) (fun _ => true)).1 (by decide)).1, ?_⟩
  have h := (c3_isErrAnd_literal (GoResult.Ok (T := Nat) (E := Nat) (some 1))
      Option.isNone Option.isNone).2 (by decide)
  simpa using h

/-- C5. Map homomorphism on `Result`: `Ok(v).Map(f).Unwrap()` yields `f(v)`
without panicking, and `Err(e).Map(f).UnwrapError()` yields `e` unchanged. -/
theorem c5_map_homomorphism {T U E : Type} (v : Option T)
    (f : Option T → Option U) (e : E) :
    ((GoResult.Ok (E := E) v).Map f).Unwrap = .ok (f v) ∧
    ((GoResult.Err (T := T) (E := E) (some e)).Map f).UnwrapError
        = .ok (some e) := by
  exact ⟨rfl, rfl⟩

/-- C6. Unwrap-family panic contract on `Result`: `Ok(v).Unwrap()` returns
`v` without panicking; `Err(e).Unwrap()` panics with the fixed diagnostic
string; `Err(e).Expect(msg)` panics with exactly `msg`. -/
theorem c6_unwrap_panic_contract {T E : Type} (v : Option T) (e : E)
    (msg : String) :
    (GoResult.Ok (E := E) v).Unwrap = .ok v ∧
    (GoResult.Err (T := T) (some e)).Unwrap
        = .error GoResult.unwrapErrValueMsg ∧
    (GoResult.Err (T := T) (some e)).Expect msg = .error msg := by
  exact ⟨rfl, rfl, rfl⟩

/-- C7. Mutually exclusive `Result` states: for any arguments (a nil or
non-nil value and a nil or non-nil error), each of `New`, `Ok` and `Err`
builds a result for which exactly one of `IsOk` and `IsErr` is `true`; in
particular `Ok(v).IsOk()` is `true` and, for an actual (non-nil) error `e`,
`Err(e).IsErr()` is `true`. -/
theorem c7_exclusive_states {T E : Type} (v : Option T) (e0 : Option E)
    (e : E) :
    (∀ r : GoResult T E,
      (r.IsOk = true ∧ r.IsErr = false) ∨ (r.IsOk = false ∧ r.IsErr = true)) ∧
    (GoResult.Ok (E := E) v).IsOk = true ∧
    (GoResult.Err (T := T) (some e)).IsErr = true ∧
    ((GoResult.New v e0).IsOk = true ↔ e0.isNone = true) := by
  refine ⟨fun r => ?_, rfl, rfl, ?_⟩
  · cases hr : r.err with
    | none => exact .inl ⟨by simp [GoResult.IsOk, hr], by simp [GoResult.IsErr, hr]⟩
    | some x => exact .inr ⟨by simp [GoResult.IsOk, hr], by simp [GoResult.IsErr, hr]⟩
  · cases e0 with
    | none => simp [GoResult.New, GoResult.IsOk]
    | some x => simp [GoResult.New, GoResult.IsOk]

/-- An explicit heap of `Result` containers, addressed by list index. A Go
`&Result{...}` literal becomes `alloc` (a fresh address at the end); a Go
assignment to a field of an existing cell would become a store into the
list, and the `result` package's source contains no such assignment. -/
structure RHeap (T E : Type) where
  cells : List (GoResult T E)
deriving DecidableEq

namespace RHeap

variable {T U E : Type}

/-- Dereference the pointer at address `a` (out-of-range reads the zero
`Result`, standing in for a Go nil-pointer dereference; the claims only
use in-range addresses). -/
def get (h : RHeap T E) (a : Nat) : GoResult T E :=
  h.cells.getD a ⟨none, none⟩

/-- Allocate a fresh container holding `c`; returns the new heap and the
fresh address. -/
def alloc (h : RHeap T E) (c : GoResult T E) : RHeap T E × Nat :=
  (⟨h.cells ++ [c]⟩, h.cells.length)

/-- `Extends h h2`: every container existing in `h` is unchanged in `h2`
(`h2` is `h` plus possibly some freshly allocated cells). -/
def Extends (h h2 : RHeap T E) : Prop :=
  h2.cells.take h.cells.length = h.cells

theorem extends_self (h : RHeap T E) : h.Extends h :=
  List.take_length h.cells

theorem extends_alloc (h : RHeap T E) (c : GoResult T E) :
    h.Extends (h.alloc c).1 :=
  List.take_left h.cells [c]

/-- Under `Extends`, every in-range read is unchanged. -/
theorem Extends.get_eq {h h2 : RHeap T E} (hx : h.Extends h2) {a : Nat}
    (ha : a < h.cells.length) : h2.get a = h.get a := by
  unfold get
  simp only [List.getD_eq_getElem?_getD]
  rw [← hx, List.getElem?_take_of_lt ha]

/-- Go `result.MapErr` on the heap:
`if r.IsOk() { return r }; return Err[T](f(r.err))` — on the `Ok` branch the
receiver pointer itself is returned. -/
def MapErr (h : RHeap T E) (a : Nat) (f : Option E → Option E) :
    RHeap T E × Nat :=
  if (h.get a).IsOk then (h, a)
  else h.alloc (GoResult.Err (f (h.get a).err))

/-- Go `Result.Inspect` on the heap:
`if r.IsOk() { f(r.value) }; return r`. The last component records the
arguments the closure `f` was invoked on (its own side effects are outside
the container model); the returned pointer is always the receiver. -/
def Inspect (h : RHeap T E) (a : Nat) : (RHeap T E × Nat) × List (Option T) :=
  if (h.get a).IsOk then ((h, a), [(h.get a).value]) else ((h, a), [])

/-- Go `Result.Or` on the heap:
`if r.IsOk() { return r }; return res` — returns one of the two existing
pointers, never a fresh one. -/
def Or (h : RHeap T E) (a b : Nat) : RHeap T E × Nat :=
  if (h.get a).IsOk then (h, a) else (h, b)

/-- Go `Result.OrElse` on the heap:
`if r.IsOk() { return r }; return op(r.err)` — the closure `op` may itself
read and allocate, so it is passed the heap. -/
def OrElse (h : RHeap T E) (a : Nat)
    (op : Option E → RHeap T E → RHeap T E × Nat) : RHeap T E × Nat :=
  if (h.get a).IsOk then (h, a) else op (h.get a).err h

/-- Go `result.Map` on the heap (the receiver is passed by value in Go):
`if r.IsErr() { return Err[U](r.err) }; return Ok(f(r.value))` — both
branches allocate a fresh container. -/
def Map (hU : RHeap U E) (r : GoResult T E) (f : Option T → Option U) :
    RHeap U E × Nat :=
  if r.IsErr then hU.alloc (GoResult.Err r.err)
  else hU.alloc (GoResult.Ok (f r.value))

/-- Go `result.And` on the heap:
`if in.IsErr() { return Err[U](in.err) }; return out` — reads `in` from the
`T`-heap and either allocates a fresh `Err` in the `U`-heap or returns the
existing pointer `out`. -/
def And (hT : RHeap T E) (a : Nat) (hU : RHeap U E) (b : Nat) :
    (RHeap T E × RHeap U E) × Nat :=
  if (hT.get a).IsErr then
    let p := hU.alloc (GoResult.Err (hT.get a).err)
    ((hT, p.1), p.2)
  else ((hT, hU), b)

/-- Go `result.AndThen` on the heap:
`if in.IsErr() { return Err[U](in.err) }; return op(in.value)`. -/
def AndThen (hT : RHeap T E) (a : Nat) (hU : RHeap U E)
    (op : Option T → RHeap U E → RHeap U E × Nat) :
    (RHeap T E × RHeap U E) × Nat :=
  if (hT.get a).IsErr then
    let p := hU.alloc (GoResult.Err (hT.get a).err)
    ((hT, p.1), p.2)
  else
    let p := op (hT.get a).value hU
    ((hT, p.1), p.2)

end RHeap

/-- C4 counterexample: `Inspect` on an `Ok` container returns the receiver
pointer itself (address `0`), not a container distinct from the original —
refuting "every transform produces an independent new container distinct
from the original". -/
theorem c4_counterexample :
    ¬ ((RHeap.Inspect (⟨[GoResult.Ok (some 1)]⟩ : RHeap Nat Nat) 0).1.2 ≠ 0) := by
  decide

/-- C4 (amended). No `Result` operation mutates any existing container: each
operation leaves every previously allocated cell (in particular the
receiver) unchanged, at most allocating fresh ones — for `OrElse`/`AndThen`
under the analogous assumption on the caller-supplied closure. However, not
every transform returns an independent new container: `Inspect` always
returns the receiver itself, and `MapErr` and `Or` return the receiver
itself when it is `Ok` (`Or` returns the argument pointer when it is not);
`Map` always allocates a fresh container. -/
theorem c4_result_no_mutation {T U E : Type} (h : RHeap T E) (hU : RHeap U E)
    (a b : Nat) (f : Option E → Option E) (g : Option T → Option U)
    (r : GoResult T E)
    (op : Option E → RHeap T E → RHeap T E × Nat)
    (opU : Option T → RHeap U E → RHeap U E × Nat) :
    (h.Extends (RHeap.MapErr h a f).1 ∧
      ((h.get a).IsOk = true → (RHeap.MapErr h a f).2 = a)) ∧
    ((RHeap.Inspect h a).1.1 = h ∧ (RHeap.Inspect h a).1.2 = a) ∧
    ((RHeap.Or h a b).1 = h ∧
      ((h.get a).IsOk = true → (RHeap.Or h a b).2 = a)) ∧
    ((∀ e h0, RHeap.Extends h0 (op e h0).1) →
      h.Extends (RHeap.OrElse h a op).1) ∧
    (hU.Extends (RHeap.Map hU r g).1 ∧
      (RHeap.Map hU r g).2 = hU.cells.length) ∧
    ((RHeap.And h a hU b).1.1 = h ∧ hU.Extends (RHeap.And h a hU b).1.2) ∧
    ((∀ v h0, RHeap.Extends h0 (opU v h0).1) →
      (RHeap.AndThen h a hU opU).1.1 = h ∧
      hU.Extends (RHeap.AndThen h a hU opU).1.2) := by
  refine ⟨?_, ?_, ?_, ?_, ?_, ?_, ?_⟩
  · by_cases hc : (h.get a).IsOk = true
    · simp [RHeap.MapErr, hc, RHeap.extends_self]
    · simp [RHeap.MapErr, hc, RHeap.extends_alloc]
  · by_cases hc : (h.get a).IsOk = true
    · simp [RHeap.Inspect, hc]
    · simp [RHeap.Inspect, hc]
  · by_cases hc : (h.get a).IsOk = true
    · simp [RHeap.Or, hc]
    · simp [RHeap.Or, hc]
  · intro hop
    by_cases hc : (h.get a).IsOk = true
    · simp [RHeap.OrElse, hc, RHeap.extends_self]
    · simpa [RHeap.OrElse, hc] using hop (h.get a).err h
  · by_cases hc : r.IsErr = true
    · exact ⟨by simp [RHeap.Map, hc, RHeap.extends_alloc],
        by simp [RHeap.Map, hc, RHeap.alloc]⟩
    · exact ⟨by simp [RHeap.Map, hc, RHeap.extends_alloc],
        by simp [RHeap.Map, hc, RHeap.alloc]⟩
  · by_cases hc : (h.get a).IsErr = true
    · exact ⟨by simp [RHeap.And, hc], by simp [RHeap.And, hc, RHeap.extends_alloc]⟩
    · exact ⟨by simp [RHeap.And, hc], by simp [RHeap.And, hc, RHeap.extends_self]⟩
  · intro hop
    by_cases hc : (h.get a).IsErr = true
    · exact ⟨by simp [RHeap.AndThen, hc],
        by simp [RHeap.AndThen, hc, RHeap.extends_alloc]⟩
    · exact ⟨by simp [RHeap.AndThen, hc],
        by simpa [RHeap.AndThen, hc] using hop (h.get a).value hU⟩

/-- C4 witness: the amended theorem instantiated on a one-cell heap holding
`Ok(1)`, with allocating closures for `OrElse`/`AndThen`. -/
theorem c4_witness :
    ((⟨[GoResult.Ok (some 1)]⟩ : RHeap Nat Nat).Extends
        (RHeap.OrElse (⟨[GoResult.Ok (some 1)]⟩ : RHeap Nat Nat) 0
          (fun e h0 => h0.alloc (GoResult.Err e))).1) ∧
    ((RHeap.MapErr (⟨[GoResult.Ok (some 1)]⟩ : RHeap Nat Nat) 0 id).2 = 0) ∧
    ((RHeap.AndThen (⟨[GoResult.Ok (some 1)]⟩ : RHeap Nat Nat) 0
        (⟨[]⟩ : RHeap Nat Nat)
        (fun v h0 => h0.alloc (GoResult.Ok v))).1.1
      = (⟨[GoResult.Ok (some 1)]⟩ : RHeap Nat Nat)) := by
  have H := c4_result_no_mutation (⟨[GoResult.Ok (some 1)]⟩ : RHeap Nat Nat)
      (⟨[]⟩ : RHeap Nat Nat) 0 0 id id (GoResult.Ok (some 1))
      (fun e h0 => h0.alloc (GoResult.Err e))
      (fun v h0 => h0.alloc (GoResult.Ok v))
  exact ⟨H.2.2.2.1 (fun e h0 => RHeap.extends_alloc h0 (GoResult.Err e)),
    H.1.2 (by decide),
    (H.2.2.2.2.2.2 (fun v h0 => RHeap.extends_alloc h0 (GoResult.Ok v))).1⟩
